import Mathlib

/-!
# gor.go: the entry point of the traffic replicator

A shallow embedding of `src/gor.go`: the `/debug/vars` handler registered by
`init`, `loggingMiddleware`, `profileCPU`, `profileMEM` and `main`.

Calls that leave the file (the standard library, the emitter, the plugin
registry) are recorded as actions of a trace; what they return is read from an
explicit environment.
-/

namespace Gor

/-! ## The `/debug/vars` handler of `init` -/

/-- One published variable, `expvar.KeyValue`; `Value` holds what the
variable's `String()` method returns. -/
structure KeyValue where
  Key : String
  Value : String
  deriving DecidableEq, Repr

/-- The variables captured by the closure handed to `expvar.Do`: the flag
`first` and the bytes written to `w` so far. -/
structure VarsWriter where
  first : Bool
  out : String
  deriving DecidableEq, Repr

/-- Body of the closure handed to `expvar.Do` (gor.go lines 34-44), run on one
key/value pair. `quote` is the rendering of the verb `%q`. -/
def varsVisit (quote : String → String) (st : VarsWriter) (kv : KeyValue) : VarsWriter :=
  if kv.Key == "memstats" || kv.Key == "cmdline" then
    st
  else
    let out1 := if !st.first then st.out ++ ",\n" else st.out
    { first := false, out := out1 ++ (quote kv.Key ++ ": " ++ kv.Value) }

/-- Body written by the `/debug/vars` handler (gor.go lines 32-45) when
`expvar.Do` visits the pairs `vars` in this order. -/
def debugVarsBody (quote : String → String) (vars : List KeyValue) : String :=
  let start : VarsWriter := { first := true, out := "\x7b\n" }
  let st := vars.foldl (varsVisit quote) start
  st.out ++ "\n\x7d\n"

/-- Whether a key is shown: it is neither "memstats" nor "cmdline". -/
def shownKey (k : String) : Bool :=
  !(k == "memstats" || k == "cmdline")

/-- One rendered entry: the quoted key, a colon and a blank, the value. -/
def renderEntry (quote : String → String) (kv : KeyValue) : String :=
  quote kv.Key ++ ": " ++ kv.Value

/-- The body as the specification words it: an opening brace line, the shown
entries joined by a comma and a line break, a closing brace line. -/
def debugVarsSpec (quote : String → String) (vars : List KeyValue) : String :=
  "\x7b\n" ++ ",\n".intercalate ((vars.filter (fun kv => shownKey kv.Key)).map (renderEntry quote))
    ++ "\n\x7d\n"

/-- The entries written one after the other, each but the first after a
comma and a line break; `first` tells whether the next entry is the first. -/
def sepJoin (first : Bool) : List String → String
  | [] => ""
  | e :: es => (if first then "" else ",\n") ++ e ++ sepJoin false es

/-! ## `loggingMiddleware` -/

/-- The handlers gor.go builds or passes to `http.ListenAndServe`. -/
inductive Handler where
  /-- The handler `nil`: the default serve mux. -/
  | defaultServeMux : Handler
  /-- The handler `http.FileServer(http.Dir(dir))`. -/
  | fileServer (dir : String) : Handler
  /-- The closure returned by `loggingMiddleware`, with the `addr` and `next`
  it captured. -/
  | logging (addr : String) (next : Handler) : Handler
  deriving DecidableEq, Repr

/-- What one run of a handler closure does, in order. `W` is the type of
response writers, `R` the type of requests. -/
inductive Effect (W R : Type) where
  /-- The call `http.Get(url)`. -/
  | httpGet (url : String) : Effect W R
  /-- The call `log.Println(line)`. -/
  | logPrintln (line : String) : Effect W R
  /-- The call `httputil.DumpRequest(r, body)`. -/
  | dumpRequest (r : R) (body : Bool) : Effect W R
  /-- The call `h.ServeHTTP(w, r)`. -/
  | serveHTTP (h : Handler) (w : W) (r : R) : Effect W R
  deriving DecidableEq, Repr

/-- What `log.Println(err)` prints for an error value: the text of the error,
`<nil>` for no error. -/
def errorLine : Option String → String
  | none => "<nil>"
  | some e => e

/-- Body of the closure returned by `loggingMiddleware` (gor.go lines 56-65).
`path` reads `r.URL.Path`, `dump` is the text `httputil.DumpRequest(r, false)`
yields, `getErr` the error `http.Get` returns (`none` when it succeeds). -/
def loggingServe {W R : Type} (path : R → String) (dump : R → String)
    (getErr : Option String) (addr : String) (next : Handler) (w : W) (r : R) :
    List (Effect W R) :=
  let loop : List (Effect W R) :=
    if path r == "/loop" then
      [Effect.httpGet ("http://" ++ addr), Effect.logPrintln (errorLine getErr)]
    else
      []
  loop ++ [Effect.dumpRequest r false, Effect.logPrintln (dump r), Effect.serveHTTP next w r]

/-- The function `loggingMiddleware` (gor.go lines 55-66): it returns the
closure over `addr` and `next`. -/
def loggingMiddleware (addr : String) (next : Handler) : Handler :=
  Handler.logging addr next

/-- Running a handler built by gor.go on a request: the closure of
`loggingMiddleware` runs its body; the handlers of the library are not
modelled (`none`). -/
def Handler.ServeHTTP {W R : Type} (path : R → String) (dump : R → String)
    (getErr : Option String) (h : Handler) (w : W) (r : R) : Option (List (Effect W R)) :=
  match h with
  | Handler.logging addr next => some (loggingServe path dump getErr addr next w r)
  | _ => none

/-! ## `main` -/

/-- Modelled from the spec: the plugin set (`InOutPlugins` is declared outside
gor.go), the resolved lists of active Sources and Sinks. Plugins are named by
numbers. -/
structure InOutPlugins where
  Inputs : List Nat
  Outputs : List Nat
  deriving DecidableEq, Repr

/-- The fields of the global `Settings` that gor.go reads (the variable is
declared outside gor.go). `ExitAfter` is a `time.Duration`, in nanoseconds. -/
structure AppSettings where
  Pprof : String
  ExitAfter : Int
  Middleware : String
  deriving DecidableEq, Repr

/-- The callbacks gor.go registers with `time.AfterFunc`. -/
inductive Callback where
  /-- gor.go lines 116-119: log the timeout, then `close(closeCh)`. -/
  | runTimeout : Callback
  /-- gor.go lines 142-145: `pprof.StopCPUProfile()`, then `f.Close()`. -/
  | stopCPUProfile (file : String) : Callback
  /-- gor.go lines 155-158: `pprof.WriteHeapProfile(f)`, then `f.Close()`. -/
  | writeHeapProfile (file : String) : Callback
  deriving DecidableEq, Repr

/-- The goroutines gor.go launches with `go`. -/
inductive Goroutine where
  /-- gor.go lines 105-107: `log.Println(http.ListenAndServe(Settings.Pprof, nil))`. -/
  | pprofListener (addr : String) : Goroutine
  /-- gor.go line 112: `emitter.Start(plugins, Settings.Middleware)`. -/
  | emitterStart (plugins : InOutPlugins) (middleware : String) : Goroutine
  deriving DecidableEq, Repr

/-- The two cases of the `select` of `main` (gor.go lines 124-129). -/
inductive Wake where
  /-- The case `<-c`: a signal was delivered. -/
  | signal : Wake
  /-- The case `<-closeCh`: the channel was closed. -/
  | closed : Wake
  deriving DecidableEq, Repr

/-- An argument of a formatted log line. -/
inductive Arg where
  | int (n : Int) : Arg
  | str (s : String) : Arg
  | duration (d : Int) : Arg
  deriving DecidableEq, Repr

/-- The calls a goroutine of gor.go makes, in the order it makes them. -/
inductive Action where
  | getenv (key : String) : Action
  | setGOMAXPROCS (n : Nat) : Action
  /-- The call `log.Fatal(msg)`: it prints and then calls `os.Exit(1)`. -/
  | logFatal (msg : String) : Action
  | getwd : Action
  | debug (level : Nat) (parts : List String) : Action
  | listenAndServe (addr : String) (handler : Handler) : Action
  | flagParse : Action
  | checkSettings : Action
  | newPlugins : Action
  | logPrintf (format : String) (args : List Arg) : Action
  | logPrintln (line : String) : Action
  | osCreate (file : String) : Action
  | startCPUProfile (file : String) : Action
  | stopCPUProfile : Action
  | writeHeapProfile (file : String) : Action
  | fileClose (file : String) : Action
  | afterFunc (d : Int) (cb : Callback) : Action
  | go (g : Goroutine) : Action
  | makeCloseCh : Action
  | newEmitter : Action
  | emitterStart (plugins : InOutPlugins) (middleware : String) : Action
  | makeSignalCh : Action
  | signalNotify : Action
  /-- The `select` of `main` took this case. -/
  | selectRecv (w : Wake) : Action
  | closeCloseCh : Action
  | emitterClose : Action
  | osExit (code : Nat) : Action
  deriving DecidableEq, Repr

/-- How a goroutine ends. -/
inductive Outcome where
  /-- The process exited with this status. -/
  | exited (status : Nat) : Outcome
  /-- The goroutine waits for ever: in `http.ListenAndServe`, or in a
  `select` none of whose cases becomes ready. -/
  | blocked : Outcome
  /-- The goroutine returned. -/
  | returned : Outcome
  deriving DecidableEq, Repr

/-- A run of one goroutine: the calls it made and how it ended. -/
structure Run where
  trace : List Action
  outcome : Outcome
  deriving DecidableEq, Repr

/-- Everything `main` reads from outside gor.go. -/
structure Env where
  /-- Value of `os.Getenv("GOMAXPROCS")`. -/
  gomaxprocs : String
  /-- Value of `runtime.NumCPU()`. -/
  numCPU : Nat
  /-- Value of `os.Args[1:]`. -/
  args : List String
  /-- Directory returned by `os.Getwd()`. -/
  cwd : String
  /-- Error returned by `http.ListenAndServe` in file-server mode; `none`
  when it serves for ever. -/
  fileServerErr : Option String
  /-- Status with which `flag.Parse()` exits the process on a bad command
  line; `none` when it returns. -/
  flagParseExit : Option Nat
  /-- Plugin set returned by `NewPlugins()`. -/
  plugins : InOutPlugins
  /-- Values of `os.Getppid()`, `os.Getpid()` and of the constant `VERSION`. -/
  ppid : Nat
  pid : Nat
  version : String
  /-- Values of the flags `memprofile` and `cpuprofile` after `flag.Parse()`. -/
  memprofile : String
  cpuprofile : String
  /-- Error of `os.Create` on the memory profile, on the CPU profile. -/
  memCreateErr : Option String
  cpuCreateErr : Option String
  /-- The global `Settings` after `flag.Parse()` and `checkSettings()`. -/
  settings : AppSettings
  /-- Error returned by the diagnostics listener; `none` when it serves for
  ever. -/
  pprofErr : Option String
  /-- Whether `emitter.Start` returns (every Source is exhausted) while `main`
  waits in the `select`. -/
  startReturns : Bool
  /-- Whether `os.Interrupt` or `SIGTERM` is delivered on `c` while `main`
  waits in the `select`. -/
  interrupt : Bool
  /-- The case the `select` takes when both of its cases are ready. -/
  pick : Wake
  deriving Repr

/-- The usage diagnostic of file-server mode (gor.go line 77). -/
def fileServerUsage : String :=
  "You should specify port and IP (optional) for the file server. Example: `gor file-server :80`"

/-- The diagnostic of the plugin check (gor.go line 93). -/
def pluginsRequired : String :=
  "Required at least 1 input and 1 output"

/-- The constant `30*time.Second`, in nanoseconds. -/
def profileDelay : Int :=
  30 * 1000000000

/-- A stretch of a goroutine: the calls it made, and how the goroutine ended
when it ended inside the stretch. -/
structure Step where
  acts : List Action
  ended : Option Outcome
  deriving DecidableEq, Repr

/-- The function `profileCPU` (gor.go lines 134-147); `createErr` is the error
of `os.Create`. -/
def profileCPU (cpuprofile : String) (createErr : Option String) : Step :=
  if cpuprofile != "" then
    match createErr with
    | some e => ⟨[Action.osCreate cpuprofile, Action.logFatal e], some (Outcome.exited 1)⟩
    | none =>
      ⟨[Action.osCreate cpuprofile, Action.startCPUProfile cpuprofile,
        Action.afterFunc profileDelay (Callback.stopCPUProfile cpuprofile)], none⟩
  else
    ⟨[], none⟩

/-- The function `profileMEM` (gor.go lines 149-160); `createErr` is the error
of `os.Create`. -/
def profileMEM (memprofile : String) (createErr : Option String) : Step :=
  if memprofile != "" then
    match createErr with
    | some e => ⟨[Action.osCreate memprofile, Action.logFatal e], some (Outcome.exited 1)⟩
    | none =>
      ⟨[Action.osCreate memprofile,
        Action.afterFunc profileDelay (Callback.writeHeapProfile memprofile)], none⟩
  else
    ⟨[], none⟩

/-- What a callback registered with `time.AfterFunc` does when its timer
fires. -/
def Callback.body (settings : AppSettings) : Callback → List Action
  | Callback.runTimeout =>
    [Action.logPrintf "gor run timeout %s\n" [Arg.duration settings.ExitAfter],
     Action.closeCloseCh]
  | Callback.stopCPUProfile file => [Action.stopCPUProfile, Action.fileClose file]
  | Callback.writeHeapProfile file => [Action.writeHeapProfile file, Action.fileClose file]

/-- What a goroutine launched with `go` does. The diagnostics listener logs
the error of `http.ListenAndServe` when that call returns; `emitter.Start` is
declared outside gor.go and is one call here. -/
def Goroutine.run (env : Env) : Goroutine → Run
  | Goroutine.pprofListener addr =>
    match env.pprofErr with
    | none => ⟨[Action.listenAndServe addr Handler.defaultServeMux], Outcome.blocked⟩
    | some e =>
      ⟨[Action.listenAndServe addr Handler.defaultServeMux, Action.logPrintln e],
        Outcome.returned⟩
  | Goroutine.emitterStart plugins middleware =>
    ⟨[Action.emitterStart plugins middleware],
      if env.startReturns then Outcome.returned else Outcome.blocked⟩

/-- Whether a call ends the process. -/
def Action.endsProcess : Action → Bool
  | Action.logFatal _ => true
  | Action.osExit _ => true
  | _ => false

/-- Whether `closeCh` is ever closed: some callback registered so far with
`time.AfterFunc` closes it. -/
def closeChArmed (settings : AppSettings) (trace : List Action) : Bool :=
  trace.any (fun a =>
    match a with
    | Action.afterFunc _ cb => decide (Action.closeCloseCh ∈ cb.body settings)
    | _ => false)

/-- The `select` statement over the two channels (gor.go lines 124-129):
the case it takes; `none` when no case ever becomes ready. -/
def selectWake (signalReady closeReady : Bool) (pick : Wake) : Option Wake :=
  match signalReady, closeReady with
  | true, true => some pick
  | true, false => some Wake.signal
  | false, true => some Wake.closed
  | false, false => none

/-- The value `exit` holds after the `select` (gor.go lines 123-129). -/
def exitStatus : Wake → Nat
  | Wake.signal => 1
  | Wake.closed => 0

/-- The end of `main`, from the `select` on (gor.go lines 123-131); `before`
holds the calls `main` made up to there. -/
def awaitShutdown (env : Env) (before : List Action) : Run :=
  match selectWake env.interrupt (closeChArmed env.settings before) env.pick with
  | none => ⟨before, Outcome.blocked⟩
  | some w =>
    ⟨before ++ [Action.selectRecv w, Action.emitterClose, Action.osExit (exitStatus w)],
      Outcome.exited (exitStatus w)⟩

/-- The start of `main` (gor.go lines 69-71). -/
def setupProcs (env : Env) : List Action :=
  [Action.getenv "GOMAXPROCS"] ++
    (if env.gomaxprocs == "" then [Action.setGOMAXPROCS (env.numCPU * 2)] else [])

/-- The condition of gor.go line 75. -/
def isFileServer (args : List String) : Bool :=
  decide (args.length > 0) && args.getD 0 "" == "file-server"

/-- The file-server branch of `main` (gor.go lines 76-83); `before` holds the
calls made up to there. -/
def fileServerMode (env : Env) (before : List Action) : Run :=
  if env.args.length != 2 then
    ⟨before ++ [Action.logFatal fileServerUsage], Outcome.exited 1⟩
  else
    let addr := env.args.getD 1 ""
    let serve := before ++
      [Action.getwd,
       Action.debug 0 ["Started example file server for current directory on address ", addr],
       Action.listenAndServe addr (loggingMiddleware addr (Handler.fileServer env.cwd))]
    match env.fileServerErr with
    | none => ⟨serve, Outcome.blocked⟩
    | some e => ⟨serve ++ [Action.logFatal e], Outcome.exited 1⟩

/-- The calls of `main` from the diagnostics listener to `signal.Notify`
(gor.go lines 104-122). -/
def pipelineCalls (env : Env) : List Action :=
  let listener :=
    if env.settings.Pprof != "" then
      [Action.go (Goroutine.pprofListener env.settings.Pprof)]
    else
      []
  let start :=
    [Action.makeCloseCh, Action.newEmitter,
     Action.go (Goroutine.emitterStart env.plugins env.settings.Middleware)]
  let timer :=
    if env.settings.ExitAfter > 0 then
      [Action.logPrintf "Running gor for a duration of %s\n" [Arg.duration env.settings.ExitAfter],
       Action.afterFunc env.settings.ExitAfter Callback.runTimeout]
    else
      []
  listener ++ start ++ timer ++ [Action.makeSignalCh, Action.signalNotify]

/-- The pipeline part of `main` (gor.go lines 104-131), reached when the
plugin check and the profiling hooks let `main` through. -/
def runPipeline (env : Env) (before : List Action) : Run :=
  awaitShutdown env (before ++ pipelineCalls env)

/-- The memory profiling hook of `main` (gor.go lines 96-98). -/
def memHook (env : Env) : Step :=
  if env.memprofile != "" then profileMEM env.memprofile env.memCreateErr else ⟨[], none⟩

/-- The CPU profiling hook of `main` (gor.go lines 100-102). -/
def cpuHook (env : Env) : Step :=
  if env.cpuprofile != "" then profileCPU env.cpuprofile env.cpuCreateErr else ⟨[], none⟩

/-- The calls of `main` from `flag.Parse()` to the version line (gor.go lines
85-90), made when `flag.Parse()` returns. -/
def parseCalls (env : Env) : List Action :=
  [Action.flagParse, Action.checkSettings, Action.newPlugins,
   Action.logPrintf "[PPID %d and PID %d] Version:%s\n"
     [Arg.int env.ppid, Arg.int env.pid, Arg.str env.version]]

/-- The part of `main` after the plugin check (gor.go lines 96-131). -/
def afterPluginCheck (env : Env) (before : List Action) : Run :=
  match (memHook env).ended with
  | some o => ⟨before ++ (memHook env).acts, o⟩
  | none =>
    match (cpuHook env).ended with
    | some o => ⟨before ++ (memHook env).acts ++ (cpuHook env).acts, o⟩
    | none => runPipeline env (before ++ (memHook env).acts ++ (cpuHook env).acts)

/-- The normal branch of `main` and what follows it (gor.go lines 85-131). -/
def normalMode (env : Env) (before : List Action) : Run :=
  match env.flagParseExit with
  | some n => ⟨before ++ [Action.flagParse], Outcome.exited n⟩
  | none =>
    let parsed := before ++ parseCalls env
    if env.plugins.Inputs.length == 0 || env.plugins.Outputs.length == 0 then
      ⟨parsed ++ [Action.logFatal pluginsRequired], Outcome.exited 1⟩
    else
      afterPluginCheck env parsed

/-- The function `main` (gor.go lines 68-132): the calls of the main goroutine
and how it ends. -/
def main (env : Env) : Run :=
  if isFileServer env.args then
    fileServerMode env (setupProcs env)
  else
    normalMode env (setupProcs env)

/-- The emitter was started: `main` reached gor.go line 112. -/
def emitterStarted (env : Env) : Prop :=
  Action.go (Goroutine.emitterStart env.plugins env.settings.Middleware) ∈ (main env).trace

instance (env : Env) : Decidable (emitterStarted env) :=
  inferInstanceAs (Decidable (_ ∈ _))

/-- The calls of `main` before the diagnostics listener (gor.go lines 69-102)
in a normal run in which `flag.Parse()` returns. -/
def startupCalls (env : Env) : List Action :=
  setupProcs env ++ parseCalls env ++ (memHook env).acts ++ (cpuHook env).acts

/-- The startup checks of a normal run: the first argument does not select the
file server, `flag.Parse()` returns, there is an input and an output, and the
profiling hooks do not end the process. -/
def startupPasses (env : Env) : Prop :=
  isFileServer env.args = false ∧ env.flagParseExit = none ∧
    env.plugins.Inputs ≠ [] ∧ env.plugins.Outputs ≠ [] ∧
    (memHook env).ended = none ∧ (cpuHook env).ended = none

instance (env : Env) : Decidable (startupPasses env) :=
  inferInstanceAs (Decidable (_ ∧ _))

/-- The environment in which the signal channel and the `select` behave as
given, everything else as in `env`. -/
def Env.withSelect (env : Env) ( interrupt : Bool) (pick : Wake) : Env :=
  { env with interrupt := interrupt, pick := pick }

/-- The calls `main` makes before gor.go line 104. -/
def Action.isSetup : Action → Bool
  | Action.getenv _ => true
  | Action.setGOMAXPROCS _ => true
  | Action.flagParse => true
  | Action.checkSettings => true
  | Action.newPlugins => true
  | Action.logPrintf _ _ => true
  | Action.osCreate _ => true
  | Action.startCPUProfile _ => true
  | Action.afterFunc _ (Callback.stopCPUProfile _) => true
  | Action.afterFunc _ (Callback.writeHeapProfile _) => true
  | _ => false

/-- Whether an effect is a call of `ServeHTTP`. -/
def Effect.isServe {W R : Type} : Effect W R → Bool
  | Effect.serveHTTP _ _ _ => true
  | _ => false

/-- Whether an effect is a call of `http.Get`. -/
def Effect.isGet {W R : Type} : Effect W R → Bool
  | Effect.httpGet _ => true
  | _ => false

/-! ## Sample environments -/

/-- A run with a five second bound, no signal, and a diagnostics listener
whose port is taken. -/
def envTimed : Env :=
  { gomaxprocs := "", numCPU := 4,
    args := ["--input-raw", ":80", "--output-http", "http://staging", "--http-pprof", ":8181",
      "--exit-after", "5s"],
    cwd := "/srv", fileServerErr := none, flagParseExit := none, plugins := ⟨[1], [2]⟩,
    ppid := 1, pid := 2, version := "1.0", memprofile := "", cpuprofile := "",
    memCreateErr := none, cpuCreateErr := none, settings := ⟨":8181", 5000000000, ""⟩,
    pprofErr := some "listen tcp :8181: bind: address already in use",
    startReturns := false, interrupt := false, pick := Wake.signal }

/-- A normal run with one input and no output. -/
def envNoOutput : Env :=
  { envTimed with args := ["--input-raw", ":80"], plugins := ⟨[1], []⟩ }

/-- A normal run with no bound on its duration, in which a signal arrives. -/
def envInterrupted : Env :=
  { envTimed with
    args := ["--input-raw", ":80", "--output-http", "http://staging"],
    settings := ⟨"", 0, ""⟩, interrupt := true }

/-- A normal run with no bound on its duration and no signal, in which
`emitter.Start` returns because every Source is exhausted. -/
def envExhausted : Env :=
  { envTimed with
    args := ["--input-file", "requests.gor", "--output-http", "http://staging"],
    settings := ⟨"", 0, ""⟩, startReturns := true }

/-- File-server mode on port 80. -/
def envFileServer : Env :=
  { envTimed with args := ["file-server", ":80"] }

/-- File-server mode with no address. -/
def envNoAddress : Env :=
  { envTimed with args := ["file-server"] }

/-! ## Lemmas on the shape of a run -/

theorem setupProcs_isSetup (env : Env) : ∀ a ∈ setupProcs env, a.isSetup = true := by
  intro a ha
  unfold setupProcs at ha
  by_cases hg : env.gomaxprocs = "" <;> simp [hg] at ha
  · rcases ha with h1 | h1 <;> simp [h1, Action.isSetup]
  · simp [ha, Action.isSetup]

theorem profileMEM_isSetup (f : String) (e : Option String)
    (h : (profileMEM f e).ended = none) : ∀ a ∈ (profileMEM f e).acts, a.isSetup = true := by
  intro a ha
  unfold profileMEM at h ha
  by_cases hf : f = "" <;> cases e <;> simp [hf] at h ha
  rcases ha with h1 | h1 <;> simp [h1, Action.isSetup]

theorem profileCPU_isSetup (f : String) (e : Option String)
    (h : (profileCPU f e).ended = none) : ∀ a ∈ (profileCPU f e).acts, a.isSetup = true := by
  intro a ha
  unfold profileCPU at h ha
  by_cases hf : f = "" <;> cases e <;> simp [hf] at h ha
  rcases ha with h1 | h1 | h1 <;> simp [h1, Action.isSetup]

theorem fileServerMode_isSetup_or (env : Env) (pre : List Action)
    (hpre : ∀ a ∈ pre, a.isSetup = true) :
    ∀ a ∈ (fileServerMode env pre).trace,
      a.isSetup = true ∨ a = Action.getwd ∨ (∃ m, a = Action.logFatal m) ∨
      (∃ l, a = Action.debug 0 l) ∨
      a = Action.listenAndServe (env.args.getD 1 "")
        (loggingMiddleware (env.args.getD 1 "") (Handler.fileServer env.cwd)) := by
  intro a ha
  unfold fileServerMode at ha
  split at ha
  · simp at ha
    rcases ha with h | h
    · exact Or.inl (hpre a h)
    · simp [h]
  · split at ha <;> simp at ha
    · rcases ha with h | h | h | h
      · exact Or.inl (hpre a h)
      · simp [h]
      · simp [h]
      · simp [h]
    · rcases ha with h | h | h | h | h
      · exact Or.inl (hpre a h)
      · simp [h]
      · simp [h]
      · simp [h]
      · simp [h]

theorem closeChArmed_append (st : AppSettings) (l₁ l₂ : List Action) :
    closeChArmed st (l₁ ++ l₂) = (closeChArmed st l₁ || closeChArmed st l₂) := by
  simp [closeChArmed, List.any_append]

theorem closeChArmed_of_isSetup (st : AppSettings) (l : List Action)
    (h : ∀ a ∈ l, a.isSetup = true) : closeChArmed st l = false := by
  unfold closeChArmed
  rw [List.any_eq_false]
  intro a ha
  have h1 := h a ha
  cases a <;> simp [Action.isSetup] at h1 ⊢
  rename_i d cb
  cases cb <;> simp [Action.isSetup, Callback.body] at h1 ⊢

theorem closeChArmed_pipelineCalls (env : Env) :
    closeChArmed env.settings (pipelineCalls env) = decide (env.settings.ExitAfter > 0) := by
  unfold pipelineCalls closeChArmed
  by_cases hp : env.settings.Pprof = "" <;> by_cases he : env.settings.ExitAfter > 0 <;>
    simp [hp, he, Callback.body]

theorem closeChArmed_pipeline (env : Env) (pre : List Action)
    (h : ∀ a ∈ pre, a.isSetup = true) :
    closeChArmed env.settings (pre ++ pipelineCalls env) = decide (env.settings.ExitAfter > 0) := by
  rw [closeChArmed_append, closeChArmed_of_isSetup _ _ h, closeChArmed_pipelineCalls]
  simp

theorem memHook_isSetup (env : Env) (h : (memHook env).ended = none) :
    ∀ a ∈ (memHook env).acts, a.isSetup = true := by
  unfold memHook at h ⊢
  by_cases hf : env.memprofile = "" <;> simp [hf] at h ⊢
  exact profileMEM_isSetup _ _ h

theorem cpuHook_isSetup (env : Env) (h : (cpuHook env).ended = none) :
    ∀ a ∈ (cpuHook env).acts, a.isSetup = true := by
  unfold cpuHook at h ⊢
  by_cases hf : env.cpuprofile = "" <;> simp [hf] at h ⊢
  exact profileCPU_isSetup _ _ h

theorem memHook_ended (env : Env) (o : Outcome) (h : (memHook env).ended = some o) :
    o = Outcome.exited 1 ∧
      ∀ a ∈ (memHook env).acts, a.isSetup = true ∨ ∃ m, a = Action.logFatal m := by
  unfold memHook profileMEM at h ⊢
  by_cases hf : env.memprofile = "" <;> cases he : env.memCreateErr <;> simp [hf, he] at h ⊢
  exact ⟨h.symm, by simp [Action.isSetup]⟩

theorem cpuHook_ended (env : Env) (o : Outcome) (h : (cpuHook env).ended = some o) :
    o = Outcome.exited 1 ∧
      ∀ a ∈ (cpuHook env).acts, a.isSetup = true ∨ ∃ m, a = Action.logFatal m := by
  unfold cpuHook profileCPU at h ⊢
  by_cases hf : env.cpuprofile = "" <;> cases he : env.cpuCreateErr <;> simp [hf, he] at h ⊢
  exact ⟨h.symm, by simp [Action.isSetup]⟩

theorem parseCalls_isSetup (env : Env) : ∀ a ∈ parseCalls env, a.isSetup = true := by
  intro a ha
  simp [parseCalls] at ha
  rcases ha with h | h | h | h <;> simp [h, Action.isSetup]

/-- A run of the normal branch either reaches the pipeline after setup calls
only, or exits after setup calls and at most one fatal log line. -/
theorem normalMode_cases (env : Env) (pre : List Action)
    (hpre : ∀ a ∈ pre, a.isSetup = true) :
    (env.flagParseExit = none ∧ env.plugins.Inputs ≠ [] ∧ env.plugins.Outputs ≠ [] ∧
        (memHook env).ended = none ∧ (cpuHook env).ended = none) ∨
    ((∃ n, (normalMode env pre).outcome = Outcome.exited n) ∧
      ∀ a ∈ (normalMode env pre).trace, a.isSetup = true ∨ ∃ m, a = Action.logFatal m) := by
  unfold normalMode afterPluginCheck
  cases hfp : env.flagParseExit with
  | some n =>
    right
    refine ⟨⟨n, rfl⟩, ?_⟩
    intro a ha
    simp at ha
    rcases ha with h | h
    · exact Or.inl (hpre a h)
    · simp [h, Action.isSetup]
  | none =>
    by_cases hi : env.plugins.Inputs = []
    · right
      simp [hi]
      intro a ha
      rcases ha with h | h | h
      · exact Or.inl (hpre a h)
      · exact Or.inl (parseCalls_isSetup env a h)
      · simp [h]
    by_cases ho : env.plugins.Outputs = []
    · right
      simp [ho]
      intro a ha
      rcases ha with h | h | h
      · exact Or.inl (hpre a h)
      · exact Or.inl (parseCalls_isSetup env a h)
      · simp [h]
    simp [hi, ho]
    cases hm : (memHook env).ended with
    | some o =>
      right
      obtain ⟨ho1, hacts⟩ := memHook_ended env o hm
      simp [ho1]
      intro a ha
      rcases ha with h | h | h
      · exact Or.inl (hpre a h)
      · exact Or.inl (parseCalls_isSetup env a h)
      · exact hacts a h
    | none =>
      cases hc : (cpuHook env).ended with
      | some o =>
        right
        obtain ⟨ho1, hacts⟩ := cpuHook_ended env o hc
        simp [ho1]
        intro a ha
        rcases ha with h | h | h | h
        · exact Or.inl (hpre a h)
        · exact Or.inl (parseCalls_isSetup env a h)
        · exact Or.inl (memHook_isSetup env hm a h)
        · exact hacts a h
      | none =>
        left
        simp

theorem startupCalls_isSetup (env : Env) (hm : (memHook env).ended = none)
    (hc : (cpuHook env).ended = none) : ∀ a ∈ startupCalls env, a.isSetup = true := by
  intro a ha
  simp [startupCalls] at ha
  rcases ha with h | h | h | h
  · exact setupProcs_isSetup env a h
  · exact parseCalls_isSetup env a h
  · exact memHook_isSetup env hm a h
  · exact cpuHook_isSetup env hc a h

theorem runPipeline_eq (env : Env) (pre : List Action)
    (hpre : ∀ a ∈ pre, a.isSetup = true) :
    runPipeline env pre =
      match selectWake env.interrupt (decide (env.settings.ExitAfter > 0)) env.pick with
      | none => ⟨pre ++ pipelineCalls env, Outcome.blocked⟩
      | some w =>
        ⟨pre ++ pipelineCalls env ++
            [Action.selectRecv w, Action.emitterClose, Action.osExit (exitStatus w)],
          Outcome.exited (exitStatus w)⟩ := by
  unfold runPipeline awaitShutdown
  rw [closeChArmed_pipeline env pre hpre]

theorem main_of_plugins (env : Env) (hn : isFileServer env.args = false)
    (hp : env.flagParseExit = none) (hi : env.plugins.Inputs ≠ [])
    (ho : env.plugins.Outputs ≠ []) :
    main env = afterPluginCheck env (setupProcs env ++ parseCalls env) := by
  unfold main normalMode
  simp [hn, hp, hi, ho]

theorem main_of_startupPasses (env : Env) (h : startupPasses env) :
    main env = runPipeline env (startupCalls env) := by
  obtain ⟨hn, hp, hi, ho, hm, hc⟩ := h
  rw [main_of_plugins env hn hp hi ho]
  unfold afterPluginCheck startupCalls
  simp only [hm, hc]

theorem emitterStarted_iff (env : Env) : emitterStarted env ↔ startupPasses env := by
  constructor
  · intro h
    unfold emitterStarted at h
    unfold main at h
    by_cases hfs : isFileServer env.args = true
    · simp only [hfs, if_true] at h
      have := fileServerMode_isSetup_or env (setupProcs env) (setupProcs_isSetup env) _ h
      simp [Action.isSetup, loggingMiddleware] at this
    · simp only [hfs] at h
      rcases normalMode_cases env (setupProcs env) (setupProcs_isSetup env) with
        ⟨h1, h2, h3, h4, h5⟩ | ⟨_, hall⟩
      · exact ⟨by simpa using hfs, h1, h2, h3, h4, h5⟩
      · have := hall _ h
        simp [Action.isSetup] at this
  · intro h
    unfold emitterStarted
    rw [main_of_startupPasses env h]
    unfold runPipeline awaitShutdown
    split <;> simp [pipelineCalls]

theorem main_of_emitterStarted (env : Env) (h : emitterStarted env) :
    (∀ a ∈ startupCalls env, a.isSetup = true) ∧
      main env = runPipeline env (startupCalls env) := by
  have hs := (emitterStarted_iff env).1 h
  exact ⟨startupCalls_isSetup env hs.2.2.2.2.1 hs.2.2.2.2.2, main_of_startupPasses env hs⟩

theorem mem_pipelineCalls (env : Env) (a : Action) :
    a ∈ pipelineCalls env ↔
      (env.settings.Pprof ≠ "" ∧ a = Action.go (Goroutine.pprofListener env.settings.Pprof)) ∨
      a = Action.makeCloseCh ∨ a = Action.newEmitter ∨
      a = Action.go (Goroutine.emitterStart env.plugins env.settings.Middleware) ∨
      (env.settings.ExitAfter > 0 ∧
        (a = Action.logPrintf "Running gor for a duration of %s\n"
            [Arg.duration env.settings.ExitAfter] ∨
         a = Action.afterFunc env.settings.ExitAfter Callback.runTimeout)) ∨
      a = Action.makeSignalCh ∨ a = Action.signalNotify := by
  unfold pipelineCalls
  by_cases hp : env.settings.Pprof = "" <;> by_cases he : env.settings.ExitAfter > 0 <;>
    simp [hp, he] <;> tauto

theorem not_mem_of_not_isSetup (pre : List Action) (a : Action)
    (hpre : ∀ b ∈ pre, b.isSetup = true) (ha : a.isSetup = false) : a ∉ pre := by
  intro hmem
  have := hpre a hmem
  simp [ha] at this

/-- C1: in a run of `main` that started the emitter, the exit status is 0 when
the `select` took the `closeCh` case (possible only with the timer armed), 1
when it took the signal case (possible only with a signal delivered), and the
main goroutine ends with no other status. -/
theorem exit_status_after_start (env : Env) (h : emitterStarted env) :
    (Action.selectRecv Wake.closed ∈ (main env).trace →
      env.settings.ExitAfter > 0 ∧ (main env).outcome = Outcome.exited 0) ∧
    (Action.selectRecv Wake.signal ∈ (main env).trace →
      env.interrupt = true ∧ (main env).outcome = Outcome.exited 1) ∧
    (∀ s, (main env).outcome = Outcome.exited s →
      (s = 0 ∧ Action.selectRecv Wake.closed ∈ (main env).trace) ∨
      (s = 1 ∧ Action.selectRecv Wake.signal ∈ (main env).trace)) ∧
    (∀ s, Action.osExit s ∈ (main env).trace → (main env).outcome = Outcome.exited s) ∧
    (main env).outcome ≠ Outcome.returned := by
  obtain ⟨hpre, hm⟩ := main_of_emitterStarted env h
  generalize startupCalls env = pre at hpre hm
  have hc := not_mem_of_not_isSetup pre (Action.selectRecv Wake.closed) hpre rfl
  have hs := not_mem_of_not_isSetup pre (Action.selectRecv Wake.signal) hpre rfl
  have hx : ∀ s, Action.osExit s ∉ pre := fun s =>
    not_mem_of_not_isSetup pre (Action.osExit s) hpre rfl
  rw [hm, runPipeline_eq env pre hpre]
  cases hi : env.interrupt <;> by_cases he : env.settings.ExitAfter > 0 <;>
    cases hk : env.pick <;>
    simp [selectWake, exitStatus, he, hc, hs, hx, mem_pipelineCalls]

theorem exit_status_after_start_witness :
    emitterStarted envTimed ∧ (main envTimed).outcome = Outcome.exited 0 :=
  ⟨by decide, ((exit_status_after_start envTimed (by decide)).1 (by decide)).2⟩

/-- C2: in normal mode, once `flag.Parse()` has returned, an empty list of
inputs or of outputs makes `main` exit with status 1 right after logging
"Required at least 1 input and 1 output", before the profiling hooks, the
diagnostics listener, `NewEmitter` and `emitter.Start`; with both lists
non-empty `main` goes on to the profiling hooks, and starts the emitter when
those do not fail. -/
theorem plugin_check (env : Env) (hn : isFileServer env.args = false)
    (hp : env.flagParseExit = none) :
    ((env.plugins.Inputs = [] ∨ env.plugins.Outputs = []) →
      (main env).outcome = Outcome.exited 1 ∧
      (main env).trace =
        setupProcs env ++ parseCalls env ++ [Action.logFatal pluginsRequired] ∧
      Action.newEmitter ∉ (main env).trace ∧
      (∀ g, Action.go g ∉ (main env).trace) ∧
      (∀ f, Action.osCreate f ∉ (main env).trace) ∧
      (∀ f, Action.startCPUProfile f ∉ (main env).trace) ∧
      (∀ d cb, Action.afterFunc d cb ∉ (main env).trace)) ∧
    ((env.plugins.Inputs ≠ [] ∧ env.plugins.Outputs ≠ []) →
      main env = afterPluginCheck env (setupProcs env ++ parseCalls env) ∧
      ((memHook env).ended = none → (cpuHook env).ended = none → emitterStarted env)) := by
  constructor
  · intro hempty
    have hm : main env =
        ⟨setupProcs env ++ parseCalls env ++ [Action.logFatal pluginsRequired],
          Outcome.exited 1⟩ := by
      unfold main normalMode
      rcases hempty with h | h <;> simp [hn, hp, h]
    rw [hm]
    refine ⟨rfl, rfl, ?_, ?_, ?_, ?_, ?_⟩ <;>
      simp [setupProcs, parseCalls]
  · rintro ⟨hi, ho⟩
    refine ⟨main_of_plugins env hn hp hi ho, ?_⟩
    intro h1 h2
    exact (emitterStarted_iff env).2 ⟨hn, hp, hi, ho, h1, h2⟩

/-- Witness of C2: a normal run with no output configured. -/
theorem plugin_check_witness :
    (main envNoOutput).outcome = Outcome.exited 1 ∧
      Action.newEmitter ∉ (main envNoOutput).trace :=
  have h := (plugin_check envNoOutput (by decide) (by decide)).1 (Or.inr (by decide))
  ⟨h.1, h.2.2.1⟩

theorem count_go_start_of_isSetup (pre : List Action) (g : Goroutine)
    (hpre : ∀ a ∈ pre, a.isSetup = true) : pre.count (Action.go g) = 0 :=
  List.count_eq_zero.2 (not_mem_of_not_isSetup pre _ hpre rfl)

theorem count_go_start_pipelineCalls (env : Env) :
    (pipelineCalls env).count
      (Action.go (Goroutine.emitterStart env.plugins env.settings.Middleware)) = 1 := by
  unfold pipelineCalls
  by_cases hp : env.settings.Pprof = "" <;> by_cases he : env.settings.ExitAfter > 0 <;>
    simp [hp, he, List.count_cons]

theorem endsProcess_of_isSetup (a : Action) (h : a.isSetup = true) : a.endsProcess = false := by
  cases a <;> simp [Action.isSetup, Action.endsProcess] at h ⊢

/-- C3: in a run that started the emitter, the calls `main` made before the
`select` are the same whichever case the `select` takes; they launch
`emitter.Start` exactly once, call neither `emitter.Close` nor an exit. When
a signal is delivered and the `select` takes the signal case, and when the
timer is armed and the `select` takes the `closeCh` case, `main` does leave
the `select`, calls `emitter.Close()` once and then `os.Exit`; the two paths
differ in the case taken and the exit status (1 and 0) only. -/
theorem shutdown_paths_converge (env : Env) (h : emitterStarted env) :
    ∃ before : List Action,
      before.count
        (Action.go (Goroutine.emitterStart env.plugins env.settings.Middleware)) = 1 ∧
      Action.emitterClose ∉ before ∧
      (∀ a ∈ before, a.endsProcess = false) ∧
      (∀ (interrupt : Bool) (pick w : Wake),
        Action.selectRecv w ∈ (main (env.withSelect interrupt pick)).trace →
          main (env.withSelect interrupt pick) =
            ⟨before ++ [Action.selectRecv w, Action.emitterClose, Action.osExit (exitStatus w)],
              Outcome.exited (exitStatus w)⟩) ∧
      (∀ pick : Wake, (env.settings.ExitAfter ≤ 0 ∨ pick = Wake.signal) →
        main (env.withSelect true pick) =
          ⟨before ++ [Action.selectRecv Wake.signal, Action.emitterClose, Action.osExit 1],
            Outcome.exited 1⟩) ∧
      (env.settings.ExitAfter > 0 →
        ∀ (interrupt : Bool) (pick : Wake), (interrupt = false ∨ pick = Wake.closed) →
          main (env.withSelect interrupt pick) =
            ⟨before ++ [Action.selectRecv Wake.closed, Action.emitterClose, Action.osExit 0],
              Outcome.exited 0⟩) ∧
      (∀ (interrupt : Bool) (pick : Wake) (s : Nat),
        (main (env.withSelect interrupt pick)).outcome = Outcome.exited s →
          (main (env.withSelect interrupt pick)).trace.count Action.emitterClose = 1) := by
  obtain ⟨hpre, -⟩ := main_of_emitterStarted env h
  have hs := (emitterStarted_iff env).1 h
  have hkey : ∀ (interrupt : Bool) (pick : Wake),
      main (env.withSelect interrupt pick) =
        match selectWake interrupt (decide (env.settings.ExitAfter > 0)) pick with
        | none => ⟨startupCalls env ++ pipelineCalls env, Outcome.blocked⟩
        | some w =>
          ⟨startupCalls env ++ pipelineCalls env ++
              [Action.selectRecv w, Action.emitterClose, Action.osExit (exitStatus w)],
            Outcome.exited (exitStatus w)⟩ := by
    intro interrupt pick
    have hs2 : startupPasses (env.withSelect interrupt pick) := hs
    have hpre2 : ∀ a ∈ startupCalls (env.withSelect interrupt pick), a.isSetup = true := hpre
    rw [main_of_startupPasses _ hs2, runPipeline_eq _ _ hpre2]
    rfl
  have hn : ∀ w, Action.selectRecv w ∉ startupCalls env := fun w =>
    not_mem_of_not_isSetup _ _ hpre rfl
  have hcl : Action.emitterClose ∉ startupCalls env :=
    not_mem_of_not_isSetup _ _ hpre rfl
  have hclose : (startupCalls env ++ pipelineCalls env).count Action.emitterClose = 0 := by
    rw [List.count_eq_zero]
    simp [mem_pipelineCalls, hcl]
  refine ⟨startupCalls env ++ pipelineCalls env, ?_, ?_, ?_, ?_, ?_, ?_, ?_⟩
  · rw [List.count_append, count_go_start_of_isSetup _ _ hpre, count_go_start_pipelineCalls]
  · simp [mem_pipelineCalls, hcl]
  · intro a ha
    rcases List.mem_append.1 ha with h1 | h1
    · exact endsProcess_of_isSetup a (hpre a h1)
    · rw [mem_pipelineCalls] at h1
      rcases h1 with ⟨_, h2⟩ | h2 | h2 | h2 | ⟨_, h2 | h2⟩ | h2 | h2 <;>
        simp [h2, Action.endsProcess]
  · intro interrupt pick w hw
    rw [hkey] at hw ⊢
    cases hsel : selectWake interrupt (decide (env.settings.ExitAfter > 0)) pick with
    | none =>
      rw [hsel] at hw
      simp [mem_pipelineCalls, hn] at hw
    | some w2 =>
      rw [hsel] at hw
      simp [mem_pipelineCalls, hn] at hw
      subst hw
      rfl
  · intro pick hp
    rw [hkey]
    by_cases he : env.settings.ExitAfter > 0
    · rcases hp with hp | hp
      · omega
      · simp [selectWake, he, hp, exitStatus]
    · simp [selectWake, he, exitStatus]
  · intro he interrupt pick hp
    rw [hkey]
    rcases hp with hp | hp
    · simp [selectWake, he, hp, exitStatus]
    · cases interrupt <;> simp [selectWake, he, hp, exitStatus]
  · intro interrupt pick s hout
    rw [hkey] at hout ⊢
    cases hsel : selectWake interrupt (decide (env.settings.ExitAfter > 0)) pick with
    | none =>
      rw [hsel] at hout
      simp at hout
    | some w2 =>
      simp only [List.count_append, hclose]
      simp [List.count_cons]

/-- Witness of C3: with the five second timer armed, the run in which a signal
is delivered and taken and the run in which the timer closes `closeCh` make
the same calls before the `select`, then `emitter.Close()` and `os.Exit`, with
status 1 and 0. -/
theorem shutdown_paths_converge_witness :
    ∃ before : List Action,
      before.count
        (Action.go (Goroutine.emitterStart envTimed.plugins envTimed.settings.Middleware)) = 1 ∧
      Action.emitterClose ∉ before ∧
      main (envTimed.withSelect true Wake.signal) =
        ⟨before ++ [Action.selectRecv Wake.signal, Action.emitterClose, Action.osExit 1],
          Outcome.exited 1⟩ ∧
      main (envTimed.withSelect false Wake.signal) =
        ⟨before ++ [Action.selectRecv Wake.closed, Action.emitterClose, Action.osExit 0],
          Outcome.exited 0⟩ := by
  obtain ⟨before, h1, h2, -, -, hsig, hclosed, -⟩ :=
    shutdown_paths_converge envTimed (by decide)
  exact ⟨before, h1, h2, hsig Wake.signal (Or.inr rfl),
    hclosed (by decide) false Wake.signal (Or.inl rfl)⟩

/-- C7: in a run that started the emitter, the callback that closes `closeCh`
is registered exactly when `Settings.ExitAfter > 0`; with
`Settings.ExitAfter <= 0` no registered callback closes `closeCh`, `main`
never calls `close(closeCh)`, the `select` can take the signal case only, and
`main` can end with exit status 1 only. -/
theorem timer_optional (env : Env) (h : emitterStarted env) :
    ((∃ d, Action.afterFunc d Callback.runTimeout ∈ (main env).trace) ↔
      env.settings.ExitAfter > 0) ∧
    (closeChArmed env.settings (main env).trace = true ↔ env.settings.ExitAfter > 0) ∧
    Action.closeCloseCh ∉ (main env).trace ∧
    (env.settings.ExitAfter ≤ 0 →
      (∀ w, Action.selectRecv w ∈ (main env).trace → w = Wake.signal) ∧
      (∀ s, (main env).outcome = Outcome.exited s → s = 1) ∧
      ((main env).outcome = Outcome.blocked ↔ env.interrupt = false)) := by
  obtain ⟨hpre, hm⟩ := main_of_emitterStarted env h
  generalize startupCalls env = pre at hpre hm
  have ht : ∀ d, Action.afterFunc d Callback.runTimeout ∉ pre := fun d =>
    not_mem_of_not_isSetup pre _ hpre rfl
  have hcl : Action.closeCloseCh ∉ pre := not_mem_of_not_isSetup pre _ hpre rfl
  have hw : ∀ w, Action.selectRecv w ∉ pre := fun w =>
    not_mem_of_not_isSetup pre _ hpre rfl
  have harm := closeChArmed_of_isSetup env.settings pre hpre
  have harm2 := closeChArmed_pipelineCalls env
  have htail : ∀ w, closeChArmed env.settings
      [Action.selectRecv w, Action.emitterClose, Action.osExit (exitStatus w)] = false :=
    fun w => rfl
  rw [hm, runPipeline_eq env pre hpre]
  cases hi : env.interrupt <;> by_cases he : env.settings.ExitAfter > 0 <;>
    cases hk : env.pick <;>
    simp [selectWake, he, closeChArmed_append, harm, harm2, htail] <;>
    simp [exitStatus, he, ht, hcl, hw, mem_pipelineCalls]

/-- Witness of C7: a run with no bound on its duration, ended by a signal. -/
theorem timer_optional_witness :
    emitterStarted envInterrupted ∧ envInterrupted.settings.ExitAfter ≤ 0 ∧
      ∀ s, (main envInterrupted).outcome = Outcome.exited s → s = 1 :=
  ⟨by decide, by decide,
    ((timer_optional envInterrupted (by decide)).2.2.2 (by decide)).2.1⟩

theorem isFileServer_iff (args : List String) :
    isFileServer args = true ↔ args.head? = some "file-server" := by
  cases args with
  | nil => simp [isFileServer]
  | cons a rest => simp [isFileServer]

theorem main_fileServer (env : Env) (h : isFileServer env.args = true) :
    main env = fileServerMode env (setupProcs env) := by
  unfold main
  simp [h]

theorem main_normal (env : Env) (h : isFileServer env.args = false) :
    main env = normalMode env (setupProcs env) := by
  unfold main
  simp [h]

/-- Every call of a normal run is a setup call, a fatal log line, one of the
pipeline calls, or one of the three calls that follow the `select`. -/
theorem main_normal_mem (env : Env) (hn : isFileServer env.args = false) :
    ∀ a ∈ (main env).trace,
      a.isSetup = true ∨ (∃ m, a = Action.logFatal m) ∨ a ∈ pipelineCalls env ∨
      (∃ w, a = Action.selectRecv w) ∨ a = Action.emitterClose ∨ ∃ n, a = Action.osExit n := by
  intro a ha
  rcases normalMode_cases env (setupProcs env) (setupProcs_isSetup env) with
    ⟨h1, h2, h3, h4, h5⟩ | ⟨_, hall⟩
  · have hs : startupPasses env := ⟨hn, h1, h2, h3, h4, h5⟩
    have hpre := startupCalls_isSetup env h4 h5
    rw [main_of_startupPasses env hs, runPipeline_eq env _ hpre] at ha
    split at ha
    · rcases List.mem_append.1 ha with h6 | h6
      · exact Or.inl (hpre a h6)
      · exact Or.inr (Or.inr (Or.inl h6))
    · simp only [List.mem_append, List.mem_cons, List.mem_singleton, List.not_mem_nil,
        or_false] at ha
      rcases ha with (h6 | h6) | h6 | h6 | h6
      · exact Or.inl (hpre a h6)
      · exact Or.inr (Or.inr (Or.inl h6))
      · exact Or.inr (Or.inr (Or.inr (Or.inl ⟨_, h6⟩)))
      · exact Or.inr (Or.inr (Or.inr (Or.inr (Or.inl h6))))
      · exact Or.inr (Or.inr (Or.inr (Or.inr (Or.inr ⟨_, h6⟩))))
  · rw [main_normal env hn] at ha
    rcases hall a ha with h6 | h6
    · exact Or.inl h6
    · exact Or.inr (Or.inl h6)

/-- C4: when the first argument is "file-server", `main` calls none of
`flag.Parse`, `checkSettings`, `NewPlugins`, `NewEmitter`, `emitter.Start`
and `emitter.Close`; when it is not (or there is no argument), `main` never
calls `http.ListenAndServe`, and no goroutine it launches serves the file
server handler. -/
theorem file_server_exclusive (env : Env) :
    (env.args.head? = some "file-server" →
      Action.flagParse ∉ (main env).trace ∧
      Action.checkSettings ∉ (main env).trace ∧
      Action.newPlugins ∉ (main env).trace ∧
      Action.newEmitter ∉ (main env).trace ∧
      (∀ g, Action.go g ∉ (main env).trace) ∧
      (∀ p m, Action.emitterStart p m ∉ (main env).trace) ∧
      Action.emitterClose ∉ (main env).trace) ∧
    (env.args.head? ≠ some "file-server" →
      (∀ addr h, Action.listenAndServe addr h ∉ (main env).trace) ∧
      (∀ g, Action.go g ∈ (main env).trace →
        ∀ addr a2 dir,
          Action.listenAndServe addr (loggingMiddleware a2 (Handler.fileServer dir)) ∉
            (g.run env).trace)) := by
  constructor
  · intro hfs
    rw [main_fileServer env ((isFileServer_iff env.args).2 hfs)]
    unfold fileServerMode setupProcs
    by_cases hl : env.args.length = 2 <;> by_cases hg : env.gomaxprocs = "" <;>
      cases he : env.fileServerErr <;> simp [hl, hg]
  · intro hfs
    have hn : isFileServer env.args = false := by
      rw [← Bool.not_eq_true, isFileServer_iff]
      exact hfs
    constructor
    · intro addr h hmem
      have := main_normal_mem env hn _ hmem
      simp [Action.isSetup, mem_pipelineCalls] at this
    · intro g hg addr a2 dir
      have := main_normal_mem env hn _ hg
      simp [Action.isSetup, mem_pipelineCalls] at this
      rcases this with ⟨_, h1⟩ | h1
      · subst h1
        unfold Goroutine.run
        cases env.pprofErr <;> simp [loggingMiddleware]
      · subst h1
        simp [Goroutine.run]

/-- C8: when the first argument is "file-server" and the number of arguments
is not 2, `main` logs the usage diagnostic, exits with status 1 and never
calls `http.ListenAndServe`; when the arguments are "file-server" and an
address, `main` calls `http.ListenAndServe` once, on that address, with the
file server of the current directory wrapped in `loggingMiddleware`, and it
is the last call before the process blocks or dies of the listen error. -/
theorem file_server_address (env : Env) (hfs : env.args.head? = some "file-server") :
    (env.args.length ≠ 2 →
      (main env).trace = setupProcs env ++ [Action.logFatal fileServerUsage] ∧
      (main env).outcome = Outcome.exited 1 ∧
      ∀ addr h, Action.listenAndServe addr h ∉ (main env).trace) ∧
    (env.args.length = 2 →
      ∃ addr, env.args = ["file-server", addr] ∧
        (∀ a h, Action.listenAndServe a h ∈ (main env).trace ↔
          (a = addr ∧ h = loggingMiddleware addr (Handler.fileServer env.cwd))) ∧
        (main env).trace.count
          (Action.listenAndServe addr (loggingMiddleware addr (Handler.fileServer env.cwd))) = 1) := by
  rw [main_fileServer env ((isFileServer_iff env.args).2 hfs)]
  constructor
  · intro hl
    unfold fileServerMode setupProcs
    by_cases hg : env.gomaxprocs = "" <;> simp [hl, hg]
  · intro hl
    match hargs : env.args, hfs, hl with
    | [a0, a1], hfs, _ =>
      simp at hfs
      subst hfs
      refine ⟨a1, rfl, ?_⟩
      unfold fileServerMode setupProcs
      by_cases hg : env.gomaxprocs = "" <;> cases he : env.fileServerErr <;>
        simp [hargs, hg, List.count_cons, loggingMiddleware]

theorem intercalate_go_eq (acc : String) (es : List String) :
    String.intercalate.go acc ",\n" es = acc ++ sepJoin false es := by
  induction es generalizing acc with
  | nil => simp [String.intercalate.go, sepJoin]
  | cons e es ih =>
    simp only [String.intercalate.go, sepJoin, ih]
    simp [String.append_assoc]

theorem intercalate_eq_sepJoin (es : List String) :
    ",\n".intercalate es = sepJoin true es := by
  cases es with
  | nil => simp [String.intercalate, sepJoin]
  | cons e es => simp [String.intercalate, sepJoin, intercalate_go_eq]

theorem foldl_varsVisit_out (quote : String → String) (vars : List KeyValue)
    (st : VarsWriter) :
    (vars.foldl (varsVisit quote) st).out =
      st.out ++ sepJoin st.first
        ((vars.filter (fun kv => shownKey kv.Key)).map (renderEntry quote)) := by
  induction vars generalizing st with
  | nil => simp [sepJoin]
  | cons kv rest ih =>
    rw [List.foldl_cons, ih]
    by_cases hk : (kv.Key == "memstats" || kv.Key == "cmdline") = true
    · have hs : shownKey kv.Key = false := by simp [shownKey, hk]
      have hv : varsVisit quote st kv = st := by simp [varsVisit, hk]
      rw [hv, List.filter_cons_of_neg (by simp [hs])]
    · have hs : shownKey kv.Key = true := by
        unfold shownKey
        simpa using hk
      have hcons : (kv :: rest).filter (fun kv => shownKey kv.Key) =
          kv :: rest.filter (fun kv => shownKey kv.Key) := by
        simp [List.filter_cons, hs]
      rw [hcons, List.map_cons]
      cases hf : st.first <;>
        simp [varsVisit, hk, hf, sepJoin, renderEntry, String.append_assoc]

/-- C9: for every sequence of published pairs (and every rendering of `%q`),
the body the `/debug/vars` handler writes is the opening brace line, then the
entries whose key is neither "memstats" nor "cmdline", in order, each as the
quoted key, ": " and the value, joined by a comma and a line break, then the
closing brace line. -/
theorem debugVarsBody_eq_spec (quote : String → String) (vars : List KeyValue) :
    debugVarsBody quote vars = debugVarsSpec quote vars := by
  unfold debugVarsBody debugVarsSpec
  simp only [foldl_varsVisit_out, intercalate_eq_sepJoin]

/-- C10: for every address, wrapped handler and request, and whatever
`http.Get` returns, the handler returned by `loggingMiddleware` calls
`ServeHTTP` exactly once, on `next`, with the same response writer and
request, as its last call; it calls `http.Get` exactly when the request path
is "/loop", and then once, on "http://" followed by the address. -/
theorem loggingMiddleware_serves_next {W R : Type} (path : R → String) (dump : R → String)
    (getErr : Option String) (addr : String) (next : Handler) (w : W) (r : R) :
    ∃ effs, Handler.ServeHTTP path dump getErr (loggingMiddleware addr next) w r = some effs ∧
      effs.filter Effect.isServe = [Effect.serveHTTP next w r] ∧
      effs.getLast? = some (Effect.serveHTTP next w r) ∧
      (Effect.httpGet ("http://" ++ addr) ∈ effs ↔ path r = "/loop") ∧
      effs.filter Effect.isGet =
        (if path r = "/loop" then [Effect.httpGet ("http://" ++ addr)] else []) := by
  refine ⟨loggingServe path dump getErr addr next w r, rfl, ?_⟩
  unfold loggingServe
  by_cases hp : path r = "/loop" <;> simp [hp, Effect.isServe, Effect.isGet]

theorem startupPasses_of_go (env : Env) (g : Goroutine)
    (h : Action.go g ∈ (main env).trace) : startupPasses env := by
  by_cases hfs : isFileServer env.args = true
  · rw [main_fileServer env hfs] at h
    have := fileServerMode_isSetup_or env (setupProcs env) (setupProcs_isSetup env) _ h
    simp [Action.isSetup] at this
  · have hn : isFileServer env.args = false := by simpa using hfs
    rcases normalMode_cases env (setupProcs env) (setupProcs_isSetup env) with
      ⟨h1, h2, h3, h4, h5⟩ | ⟨_, hall⟩
    · exact ⟨hn, h1, h2, h3, h4, h5⟩
    · rw [main_normal env hn] at h
      have := hall _ h
      simp [Action.isSetup] at this

/-- C6: `main` launches the diagnostics listener only when `Settings.Pprof`
is non-empty, and on that address; whatever the listener returns, its
goroutine only logs the error and never ends the process, the run of `main`
is the same, and `main` constructs the emitter and launches `emitter.Start`
after launching the listener. -/
theorem diagnostics_not_blocking (env : Env) :
    (∀ addr, Action.go (Goroutine.pprofListener addr) ∈ (main env).trace →
      env.settings.Pprof ≠ "" ∧ addr = env.settings.Pprof) ∧
    (emitterStarted env →
      (Action.go (Goroutine.pprofListener env.settings.Pprof) ∈ (main env).trace ↔
        env.settings.Pprof ≠ "")) ∧
    (∀ addr (e : Option String),
      (∀ a ∈ ((Goroutine.pprofListener addr).run { env with pprofErr := e }).trace,
        a.endsProcess = false) ∧
      (∀ s, ((Goroutine.pprofListener addr).run { env with pprofErr := e }).outcome ≠
        Outcome.exited s) ∧
      (∀ msg, e = some msg →
        Action.logPrintln msg ∈
          ((Goroutine.pprofListener addr).run { env with pprofErr := e }).trace)) ∧
    (∀ e : Option String, main { env with pprofErr := e } = main env) ∧
    (∀ addr, Action.go (Goroutine.pprofListener addr) ∈ (main env).trace →
      ∀ e : Option String,
        Action.newEmitter ∈ (main { env with pprofErr := e }).trace ∧
        emitterStarted { env with pprofErr := e }) := by
  have hsame : ∀ e : Option String, main { env with pprofErr := e } = main env :=
    fun _ => rfl
  have hstart : ∀ addr, Action.go (Goroutine.pprofListener addr) ∈ (main env).trace →
      emitterStarted env ∧ Action.newEmitter ∈ (main env).trace := by
    intro addr h
    have hs := startupPasses_of_go env _ h
    refine ⟨(emitterStarted_iff env).2 hs, ?_⟩
    rw [main_of_startupPasses env hs]
    unfold runPipeline awaitShutdown
    split <;> simp [mem_pipelineCalls]
  refine ⟨?_, ?_, ?_, hsame, ?_⟩
  · intro addr h
    have hs := startupPasses_of_go env _ h
    have hpre := startupCalls_isSetup env hs.2.2.2.2.1 hs.2.2.2.2.2
    rw [main_of_startupPasses env hs, runPipeline_eq env _ hpre] at h
    have hn := not_mem_of_not_isSetup _ (Action.go (Goroutine.pprofListener addr)) hpre rfl
    split at h <;> simp [hn, mem_pipelineCalls] at h <;> exact ⟨h.1, h.2⟩
  · intro h
    obtain ⟨hpre, hm⟩ := main_of_emitterStarted env h
    have hn := not_mem_of_not_isSetup _
      (Action.go (Goroutine.pprofListener env.settings.Pprof)) hpre rfl
    rw [hm, runPipeline_eq env _ hpre]
    split <;> simp [hn, mem_pipelineCalls]
  · intro addr e
    cases e <;> simp [Goroutine.run, Action.endsProcess]
  · intro addr h e
    obtain ⟨h1, h2⟩ := hstart addr h
    exact ⟨h2, h1⟩

/-- C5, as stated, fails: in this run the emitter is started, `emitter.Start`
returns because its Sources are exhausted, and `main` stays in the `select`
for ever: the process does not terminate. -/
theorem source_loss_not_terminal :
    emitterStarted envExhausted ∧ envExhausted.startReturns = true ∧
      ((Goroutine.emitterStart envExhausted.plugins envExhausted.settings.Middleware).run
        envExhausted).outcome = Outcome.returned ∧
      (main envExhausted).outcome = Outcome.blocked ∧
      ¬ ∃ s, (main envExhausted).outcome = Outcome.exited s := by
  have hb : (main envExhausted).outcome = Outcome.blocked := by decide
  refine ⟨by decide, by decide, by decide, hb, ?_⟩
  rintro ⟨s, hs⟩
  rw [hb] at hs
  exact Outcome.noConfusion hs

/-- C5, amended: the return of `emitter.Start` is not observed. The goroutine
that ran it ends without ending the process, the run of `main` is the same
whether or not `emitter.Start` returns, and once the emitter is started the
process terminates exactly when a signal is delivered or the run-duration
timer is armed; otherwise `main` waits in the `select` for ever. -/
theorem source_loss_unobserved (env : Env) (h : emitterStarted env) :
    (∀ b : Bool, main { env with startReturns := b } = main env) ∧
    (∀ a ∈ ((Goroutine.emitterStart env.plugins env.settings.Middleware).run env).trace,
      a.endsProcess = false) ∧
    (∀ s, ((Goroutine.emitterStart env.plugins env.settings.Middleware).run env).outcome ≠
      Outcome.exited s) ∧
    ((∃ s, (main env).outcome = Outcome.exited s) ↔
      (env.interrupt = true ∨ env.settings.ExitAfter > 0)) ∧
    ((main env).outcome = Outcome.blocked ↔
      (env.interrupt = false ∧ env.settings.ExitAfter ≤ 0)) := by
  obtain ⟨hpre, hm⟩ := main_of_emitterStarted env h
  refine ⟨fun _ => rfl, ?_, ?_, ?_, ?_⟩
  · simp [Goroutine.run, Action.endsProcess]
  · intro s
    cases hb : env.startReturns <;> simp [Goroutine.run, hb]
  · rw [hm, runPipeline_eq env _ hpre]
    cases hi : env.interrupt <;> by_cases he : env.settings.ExitAfter > 0 <;>
      cases hk : env.pick <;> simp [selectWake, he]
  · rw [hm, runPipeline_eq env _ hpre]
    cases hi : env.interrupt <;> by_cases he : env.settings.ExitAfter > 0 <;>
      cases hk : env.pick <;> simp [selectWake, he] <;> omega

/-- Witness of C5 amended: the run in which every Source is exhausted. -/
theorem source_loss_unobserved_witness :
    emitterStarted envExhausted ∧
      ((main envExhausted).outcome = Outcome.blocked ↔
        (envExhausted.interrupt = false ∧ envExhausted.settings.ExitAfter ≤ 0)) :=
  ⟨by decide, (source_loss_unobserved envExhausted (by decide)).2.2.2.2⟩

/-- Witness of C4: the file server on port 80. -/
theorem file_server_exclusive_witness :
    Action.flagParse ∉ (main envFileServer).trace ∧
      Action.newEmitter ∉ (main envFileServer).trace :=
  have h := (file_server_exclusive envFileServer).1 (by decide)
  ⟨h.1, h.2.2.2.1⟩

/-- Witness of C8: file-server mode with no address. -/
theorem file_server_address_witness :
    envNoAddress.args.head? = some "file-server" ∧
      (main envNoAddress).outcome = Outcome.exited 1 :=
  ⟨by decide, ((file_server_address envNoAddress (by decide)).1 (by decide)).2.1⟩

/-- Witness of C6: the diagnostics port is taken, the emitter starts. -/
theorem diagnostics_not_blocking_witness :
    Action.go (Goroutine.pprofListener ":8181") ∈ (main envTimed).trace ∧
      emitterStarted envTimed :=
  ⟨by decide,
    ((diagnostics_not_blocking envTimed).2.2.2.2 ":8181" (by decide) envTimed.pprofErr).2⟩

end Gor
